import Mathlib

/-!
Verification of the Medical Note AI Assistant core (src/main.py).

Shallow embedding: sentences are lists of characters (Python `str`),
the keyword tables and the categorizer mirror `NoteParser`, the note
entity mirrors `ClinicalNote`, and the SQLite-backed `NoteDatabase`
is modelled as a pure record store (a list of note rows and a list of
audio rows plus the AUTOINCREMENT counter).  Timestamps are modelled
as natural numbers at the full persisted precision: `datetime.isoformat`
is injective and order-preserving, and `datetime.fromisoformat` inverts
it exactly, so ISO-8601 text comparisons in SQL coincide with `≤` on
the modelled instant.
-/

namespace MedNote

/-- Python `str.lower()` restricted to the ASCII range used by the keyword
tables (`statement.lower()` in `categorize_statement`). -/
def lowerStr (s : List Char) : List Char := s.map Char.toLower

/-- `leadsWith hay needle` is true when `needle` is an initial run of `hay`. -/
def leadsWith : List Char → List Char → Bool
  | _, [] => true
  | [], _ :: _ => false
  | c :: cs, d :: ds => c == d && leadsWith cs ds

/-- Python `needle in hay` on strings: `needle` occurs as a contiguous
substring of `hay`. -/
def strContains : List Char → List Char → Bool
  | [], needle => needle.isEmpty
  | c :: rest, needle => leadsWith (c :: rest) needle || strContains rest needle

/-- One pass of the `for keyword in KEYWORDS: if keyword in statement_lower`
loops of `categorize_statement`. -/
def matchesAny (keywords : List (List Char)) (s : List Char) : Bool :=
  keywords.any fun kw => strContains s kw

/-- `NoteParser.SUBJECTIVE_KEYWORDS`. -/
def SUBJECTIVE_KEYWORDS : List (List Char) :=
  ["complains", "reports", "states", "feels", "experiencing",
   "symptoms", "pain", "discomfort", "history", "denies"].map String.toList

/-- `NoteParser.OBJECTIVE_KEYWORDS`. -/
def OBJECTIVE_KEYWORDS : List (List Char) :=
  ["bp", "blood pressure", "heart rate", "hr", "temp", "temperature",
   "exam", "examination", "auscultation", "palpation", "inspection",
   "lab", "test", "result", "x-ray", "imaging", "vitals"].map String.toList

/-- `NoteParser.ASSESSMENT_KEYWORDS`. -/
def ASSESSMENT_KEYWORDS : List (List Char) :=
  ["diagnosis", "differential", "impression", "consistent with",
   "likely", "suspect", "presents with", "appears to be"].map String.toList

/-- `NoteParser.PLAN_KEYWORDS`. -/
def PLAN_KEYWORDS : List (List Char) :=
  ["prescribe", "medication", "treat", "follow up", "return",
   "refer", "order", "recommend", "advise", "therapy"].map String.toList

/-- `NoteParser.categorize_statement`: lower-case the sentence, test the four
keyword tables in the order plan, assessment, objective, subjective, and
return the tag of the first table with a keyword occurring as a substring;
default to `"subjective"`. -/
def categorize_statement (statement : List Char) : String :=
  let statement_lower := lowerStr statement
  if matchesAny PLAN_KEYWORDS statement_lower then "plan"
  else if matchesAny ASSESSMENT_KEYWORDS statement_lower then "assessment"
  else if matchesAny OBJECTIVE_KEYWORDS statement_lower then "objective"
  else if matchesAny SUBJECTIVE_KEYWORDS statement_lower then "subjective"
  else "subjective"

/-- `text.replace('\n', '. ')`: each newline becomes a period and a space. -/
def replaceNewlines (text : List Char) : List Char :=
  text.flatMap fun c => if c == '\n' then ['.', ' '] else [c]

/-- Python `str.split(sep)` for a one-character separator: `"".split('.')`
is `[""]`, separators at the ends produce empty fields. -/
def splitOnChar (sep : Char) : List Char → List (List Char)
  | [] => [[]]
  | c :: cs =>
    match splitOnChar sep cs with
    | [] => [[]]
    | g :: gs => if c == sep then [] :: g :: gs else (c :: g) :: gs

/-- The whitespace class of Python `str.strip()` (ASCII part). -/
def pyIsSpace (c : Char) : Bool :=
  c == ' ' || c == '\t' || c == '\n' || c == '\r' || c == '\x0b' || c == '\x0c'

/-- Python `str.strip()`: drop leading and trailing whitespace. -/
def strip (s : List Char) : List Char :=
  ((s.dropWhile pyIsSpace).reverse.dropWhile pyIsSpace).reverse

/-- The sentence-splitting line of `NoteParser.parse_encounter`:
`[s.strip() for s in text.replace('\n', '. ').split('.') if s.strip()]`. -/
def splitSentences (text : List Char) : List (List Char) :=
  ((splitOnChar '.' (replaceNewlines text)).map strip).filter fun s => !s.isEmpty

/-- The `result` dictionary of `parse_encounter`: one ordered list of
sentences per SOAP section. -/
structure SoapResult where
  subjective : List (List Char)
  objective : List (List Char)
  assessment : List (List Char)
  plan : List (List Char)
deriving Repr, DecidableEq

/-- `result[category].append(sentence)` for the tag returned by
`categorize_statement`. -/
def appendToCategory (acc : SoapResult) (s : List Char) : SoapResult :=
  let category := categorize_statement s
  if category = "plan" then { acc with plan := acc.plan ++ [s] }
  else if category = "assessment" then { acc with assessment := acc.assessment ++ [s] }
  else if category = "objective" then { acc with objective := acc.objective ++ [s] }
  else { acc with subjective := acc.subjective ++ [s] }

/-- `NoteParser.parse_encounter`: split the transcript into sentences and
append each to the list named by its category, in encounter order. -/
def parse_encounter (text : List Char) : SoapResult :=
  (splitSentences text).foldl appendToCategory ⟨[], [], [], []⟩

/-- The `ClinicalNote` entity.  `audio_data` is `none` for Python `None`;
bytes are modelled as lists of byte values, so Python's empty `b""` is
`some []`. -/
structure ClinicalNote where
  note_id : Option Nat
  patient_id : String
  physician_name : String
  language : String
  timestamp : Nat
  subjective : List String
  objective : List String
  assessment : List String
  plan : List String
  audio_data : Option (List Nat)
deriving Repr, DecidableEq

/-- The language display table of `generate_note` (`dict.get` with the raw
code as default). -/
def langDisplay (language : String) : String :=
  if language = "en-US" then "English"
  else if language = "es-ES" then "Spanish"
  else if language = "fr-FR" then "French"
  else if language = "it-IT" then "Italian"
  else if language = "tr-TR" then "Turkish"
  else if language = "de-DE" then "German"
  else language

/-- `self.timestamp.strftime('%Y-%m-%d %H:%M')`: a minute-precision rendering
of the instant (instants are counted in microseconds, so this displays the
minute index; it is a function of the stored timestamp only). -/
def formatDateMinutes (t : Nat) : String := toString (t / 60000000)

/-- `ClinicalNote._format_section`. -/
def formatSection (items : List String) : String :=
  if items.isEmpty then "  [Not documented]"
  else String.intercalate "\n" (items.map fun item => "  - " ++ item)

/-- Python `str.strip()` on a whole report. -/
def stripStr (s : String) : String := (strip s.toList).asString

/-- The `'='*60` separator line. -/
def eqBar : String := (List.replicate 60 '=').asString

/-- `ClinicalNote.generate_note`: the fixed-layout report, built from the
note state alone and finished with `.strip()`.  The `Note ID:` line is
emitted only when `self.note_id` is truthy (not `None` and not `0`). -/
def generate_note (note : ClinicalNote) : String :=
  let lang_display := langDisplay note.language
  let noteIdLine : String :=
    match note.note_id with
    | some i => if i = 0 then "" else "Note ID: " ++ toString i
    | none => ""
  stripStr ("\nCLINICAL NOTE\nDate: " ++ formatDateMinutes note.timestamp ++
    "\nPatient ID: " ++ note.patient_id ++
    "\nPhysician: " ++ note.physician_name ++
    "\nLanguage: " ++ lang_display ++
    "\n" ++ noteIdLine ++
    "\n\n" ++ eqBar ++
    "\n\nSUBJECTIVE:\n" ++ formatSection note.subjective ++
    "\n\nOBJECTIVE:\n" ++ formatSection note.objective ++
    "\n\nASSESSMENT:\n" ++ formatSection note.assessment ++
    "\n\nPLAN:\n" ++ formatSection note.plan ++
    "\n\n" ++ eqBar ++
    "\nElectronically signed by: " ++ note.physician_name ++ "\n")

/-- A row of the `clinical_notes` table.  The four section columns hold
`json.dumps` of lists of strings; `json.loads` inverts that serialization
exactly, so the stored payload is modelled as the list itself.  The
`timestamp` column holds `datetime.isoformat()`, inverted exactly by
`datetime.fromisoformat`, modelled as the instant. -/
structure NoteRow where
  note_id : Nat
  patient_id : String
  physician_name : String
  language : String
  timestamp : Nat
  subjective : List String
  objective : List String
  assessment : List String
  plan : List String
deriving Repr, DecidableEq

/-- A row of the `audio_recordings` table. -/
structure AudioRow where
  note_id : Nat
  audio_data : List Nat
deriving Repr, DecidableEq

/-- The persisted state of `NoteDatabase`: the two tables plus the
AUTOINCREMENT counter that yields `cursor.lastrowid` for the next insert. -/
structure NoteDatabase where
  next_id : Nat
  notes : List NoteRow
  audio : List AudioRow
deriving Repr, DecidableEq

/-- A freshly created database file: AUTOINCREMENT ids start at 1. -/
def emptyDb : NoteDatabase := ⟨1, [], []⟩

/-- Python truthiness of `note.audio_data` (`None` and `b""` are falsy). -/
def audioTruthy : Option (List Nat) → Bool
  | none => false
  | some bs => !bs.isEmpty

/-- `NoteDatabase.save_note`: insert the note row, then insert an audio row
only when `note.audio_data` is truthy; return `cursor.lastrowid`. -/
def save_note (db : NoteDatabase) (note : ClinicalNote) : Nat × NoteDatabase :=
  let note_id := db.next_id
  let row : NoteRow :=
    ⟨note_id, note.patient_id, note.physician_name, note.language, note.timestamp,
     note.subjective, note.objective, note.assessment, note.plan⟩
  let audio' :=
    if audioTruthy note.audio_data then db.audio ++ [⟨note_id, note.audio_data.getD []⟩]
    else db.audio
  (note_id, ⟨db.next_id + 1, db.notes ++ [row], audio'⟩)

/-- Reconstruction of a `ClinicalNote` from a fetched row, as done in
`get_note` and `search_notes` (audio not loaded here). -/
def rowToNote (r : NoteRow) : ClinicalNote :=
  { note_id := some r.note_id, patient_id := r.patient_id,
    physician_name := r.physician_name, language := r.language,
    timestamp := r.timestamp, subjective := r.subjective,
    objective := r.objective, assessment := r.assessment, plan := r.plan,
    audio_data := none }

/-- `NoteDatabase.get_note`: fetch the note row by id, rebuild the note, and
attach the audio payload when an audio row exists. -/
def get_note (db : NoteDatabase) (note_id : Nat) : Option ClinicalNote :=
  match db.notes.find? (fun r => r.note_id == note_id) with
  | none => none
  | some row =>
    let audio_row := db.audio.find? (fun a => a.note_id == note_id)
    some { rowToNote row with audio_data := audio_row.map (·.audio_data) }

/-- The `if patient_id:` / `if physician_name:` guards of `search_notes`:
the equality condition is added only when the argument is truthy (not `None`
and not the empty string). -/
def strFilterOk : Option String → String → Bool
  | none, _ => true
  | some s, field => if s = "" then true else field == s

/-- The `if start_date:` guard (`timestamp >= ?`); `datetime` objects are
always truthy. -/
def dateLowOk : Option Nat → Nat → Bool
  | none, _ => true
  | some d, ts => decide (d ≤ ts)

/-- The `if end_date:` guard (`timestamp <= ?`). -/
def dateHighOk : Option Nat → Nat → Bool
  | none, _ => true
  | some d, ts => decide (ts ≤ d)

/-- The accumulated `WHERE` clause of `search_notes` on one row. -/
def noteMatches (patient_id physician_name : Option String)
    (start_date end_date : Option Nat) (r : NoteRow) : Bool :=
  strFilterOk patient_id r.patient_id && strFilterOk physician_name r.physician_name &&
  dateLowOk start_date r.timestamp && dateHighOk end_date r.timestamp

/-- `ORDER BY timestamp DESC`: later instants first. -/
def tsDesc (a b : NoteRow) : Bool := decide (b.timestamp ≤ a.timestamp)

/-- `NoteDatabase.search_notes`: filter by the enabled predicates, order by
clinical timestamp descending, apply `LIMIT` (default 100), and rebuild
notes without loading audio. -/
def search_notes (db : NoteDatabase) (patient_id physician_name : Option String)
    (start_date end_date : Option Nat) (limit : Nat := 100) : List ClinicalNote :=
  let rows := db.notes.filter (noteMatches patient_id physician_name start_date end_date)
  ((rows.mergeSort tsDesc).take limit).map rowToNote

/-- `NoteDatabase.delete_note`: return `False` when no row has the id;
otherwise remove the audio rows for the id first, then the note rows, and
return `True`. -/
def delete_note (db : NoteDatabase) (note_id : Nat) : Bool × NoteDatabase :=
  if db.notes.any (fun r => r.note_id == note_id) then
    (true, { db with audio := db.audio.filter (fun a => !(a.note_id == note_id)),
                     notes := db.notes.filter (fun r => !(r.note_id == note_id)) })
  else (false, db)

/-- The result of `NoteDatabase.get_statistics`. -/
structure Statistics where
  total_notes : Nat
  total_patients : Nat
  total_physicians : Nat
  total_audio_recordings : Nat
deriving Repr, DecidableEq

/-- `NoteDatabase.get_statistics`: row counts and `COUNT(DISTINCT ...)`
computed over the current persisted state. -/
def get_statistics (db : NoteDatabase) : Statistics :=
  { total_notes := db.notes.length,
    total_patients := (db.notes.map (·.patient_id)).dedup.length,
    total_physicians := (db.notes.map (·.physician_name)).dedup.length,
    total_audio_recordings := db.audio.length }

/-- The storage failure surfaced by `save_note` (spec: `StorageError`). -/
inductive StorageError where
  | writeFailure
deriving Repr, DecidableEq

/-- Modelled from the spec: the behaviour of the underlying record store on
failure is outside src (the spec treats the storage engine's connection
mechanics as an external collaborator).  The sqlite connection buffers the
note insert and the audio insert of one `save_note` call in a single open
transaction and applies both at the trailing `conn.commit()`; when the
store is unreachable or the write fails, the raised error surfaces to the
caller as a `StorageError` and the transaction is not committed, so the
persisted state is unchanged.  `storeFails` is the failure oracle. -/
def save_note_run (db : NoteDatabase) (note : ClinicalNote) (storeFails : Bool) :
    Except StorageError Nat × NoteDatabase :=
  if storeFails then (Except.error StorageError.writeFailure, db)
  else
    let r := save_note db note
    (Except.ok r.1, r.2)

/-- No row of either table already carries `id` (the AUTOINCREMENT
freshness invariant every reachable database state satisfies). -/
def idUnused (db : NoteDatabase) (id : Nat) : Bool :=
  db.notes.all (fun r => !(r.note_id == id)) && db.audio.all (fun a => !(a.note_id == id))

/-- Some keyword of the table occurs as a substring of the lower-cased
sentence. -/
def hasKeyword (kws : List (List Char)) (s : List Char) : Prop :=
  ∃ kw ∈ kws, strContains (lowerStr s) kw = true

/-- The sentence is tagged `tag` by the categorizer. -/
def catIs (tag : String) (s : List Char) : Bool := categorize_statement s == tag

/-- A one-note database used to instantiate the storage contracts: note 1
with an attached audio recording, next AUTOINCREMENT id 2. -/
def exDb : NoteDatabase :=
  ⟨2,
   [⟨1, "PT-12345", "Dr. Sarah Johnson", "en-US", 5,
     ["Patient complains of cough"], ["BP 128/82"], [], []⟩],
   [⟨1, [1, 2, 3]⟩]⟩

/-- A sample unsaved note whose audio bytes are the empty byte string. -/
def exNote : ClinicalNote :=
  ⟨none, "PT-777", "Dr. B", "fr-FR", 9, ["s1"], ["o1"], ["a1"], ["p1"], some []⟩

/-- A sample unsaved note with a non-empty audio payload. -/
def exNote2 : ClinicalNote :=
  ⟨none, "PT-778", "Dr. C", "xx-XX", 4, [], [], [], ["Will prescribe"], some [9]⟩

/- ------------------------------------------------------------------ -/
/- Theorems.                                                           -/
/- ------------------------------------------------------------------ -/

theorem hasKeyword_iff (kws : List (List Char)) (s : List Char) :
    hasKeyword kws s ↔ matchesAny kws (lowerStr s) = true := by
  rw [matchesAny, List.any_eq_true]
  exact Iff.rfl

theorem not_hasKeyword (kws : List (List Char)) (s : List Char)
    (h : ¬ hasKeyword kws s) : matchesAny kws (lowerStr s) = false := by
  cases hh : matchesAny kws (lowerStr s)
  · rfl
  · exact absurd ((hasKeyword_iff kws s).mpr hh) h

theorem noKeyword_matchesAny (kws : List (List Char)) (s : List Char)
    (h : ∀ kw ∈ kws, strContains (lowerStr s) kw = false) :
    matchesAny kws (lowerStr s) = false := by
  cases hh : matchesAny kws (lowerStr s)
  · rfl
  · obtain ⟨kw, hm, hc⟩ := List.any_eq_true.mp hh
    rw [h kw hm] at hc
    cases hc

theorem categorize_total (s : List Char) :
    categorize_statement s = "plan" ∨ categorize_statement s = "assessment" ∨
    categorize_statement s = "objective" ∨ categorize_statement s = "subjective" := by
  cases h1 : matchesAny PLAN_KEYWORDS (lowerStr s) <;>
  cases h2 : matchesAny ASSESSMENT_KEYWORDS (lowerStr s) <;>
  cases h3 : matchesAny OBJECTIVE_KEYWORDS (lowerStr s) <;>
  cases h4 : matchesAny SUBJECTIVE_KEYWORDS (lowerStr s) <;>
  simp [categorize_statement, h1, h2, h3, h4]

/-- C1: a sentence containing a plan keyword (as a case-insensitive
substring) is tagged `plan`, whatever other keywords it contains; in
general the tag is that of the first keyword table, in the order plan,
assessment, objective, subjective, with a keyword occurring in the
lower-cased sentence. -/
theorem categorize_statement_priority (s : List Char) :
    (hasKeyword PLAN_KEYWORDS s → categorize_statement s = "plan") ∧
    (¬ hasKeyword PLAN_KEYWORDS s → hasKeyword ASSESSMENT_KEYWORDS s →
      categorize_statement s = "assessment") ∧
    (¬ hasKeyword PLAN_KEYWORDS s → ¬ hasKeyword ASSESSMENT_KEYWORDS s →
      hasKeyword OBJECTIVE_KEYWORDS s → categorize_statement s = "objective") ∧
    (¬ hasKeyword PLAN_KEYWORDS s → ¬ hasKeyword ASSESSMENT_KEYWORDS s →
      ¬ hasKeyword OBJECTIVE_KEYWORDS s → hasKeyword SUBJECTIVE_KEYWORDS s →
      categorize_statement s = "subjective") := by
  refine ⟨?_, ?_, ?_, ?_⟩
  · intro h
    simp [categorize_statement, (hasKeyword_iff _ _).mp h]
  · intro h1 h2
    simp [categorize_statement, not_hasKeyword _ _ h1, (hasKeyword_iff _ _).mp h2]
  · intro h1 h2 h3
    simp [categorize_statement, not_hasKeyword _ _ h1, not_hasKeyword _ _ h2,
      (hasKeyword_iff _ _).mp h3]
  · intro h1 h2 h3 h4
    simp [categorize_statement, not_hasKeyword _ _ h1, not_hasKeyword _ _ h2,
      not_hasKeyword _ _ h3, (hasKeyword_iff _ _).mp h4]

/-- Witness for C1: "Will prescribe medication for pain" carries the plan
keyword "prescribe" and the subjective keyword "pain" and is tagged
`plan`. -/
theorem categorize_statement_priority_witness :
    categorize_statement ("Will prescribe medication for pain".toList) = "plan" ∧
    hasKeyword SUBJECTIVE_KEYWORDS ("Will prescribe medication for pain".toList) :=
  ⟨(categorize_statement_priority _).1 ⟨"prescribe".toList, by decide, by decide⟩,
   ⟨"pain".toList, by decide, by decide⟩⟩

/-- C2: a sentence in which no keyword of any of the four tables occurs is
tagged `subjective`, and the categorizer is total: every sentence receives
exactly one of the four tags, with no error path. -/
theorem categorize_statement_default_total (s : List Char) :
    ((∀ kw ∈ PLAN_KEYWORDS ++ ASSESSMENT_KEYWORDS ++ OBJECTIVE_KEYWORDS ++
        SUBJECTIVE_KEYWORDS, strContains (lowerStr s) kw = false) →
      categorize_statement s = "subjective") ∧
    (categorize_statement s = "plan" ∨ categorize_statement s = "assessment" ∨
      categorize_statement s = "objective" ∨ categorize_statement s = "subjective") := by
  constructor
  · intro h
    have h1 := noKeyword_matchesAny PLAN_KEYWORDS s (fun kw hk => h kw (by simp [hk]))
    have h2 := noKeyword_matchesAny ASSESSMENT_KEYWORDS s (fun kw hk => h kw (by simp [hk]))
    have h3 := noKeyword_matchesAny OBJECTIVE_KEYWORDS s (fun kw hk => h kw (by simp [hk]))
    have h4 := noKeyword_matchesAny SUBJECTIVE_KEYWORDS s (fun kw hk => h kw (by simp [hk]))
    simp [categorize_statement, h1, h2, h3, h4]
  · exact categorize_total s

/-- Witness for C2: "He is doing okay today" contains no keyword of any
table and is tagged `subjective`. -/
theorem categorize_statement_default_total_witness :
    categorize_statement ("He is doing okay today".toList) = "subjective" :=
  (categorize_statement_default_total _).1 (by decide)

theorem foldl_appendToCategory (l : List (List Char)) (acc : SoapResult) :
    l.foldl appendToCategory acc =
      ⟨acc.subjective ++ l.filter (catIs "subjective"),
       acc.objective ++ l.filter (catIs "objective"),
       acc.assessment ++ l.filter (catIs "assessment"),
       acc.plan ++ l.filter (catIs "plan")⟩ := by
  induction l generalizing acc with
  | nil => simp
  | cons s t ih =>
    rw [List.foldl_cons, ih]
    rcases categorize_total s with h | h | h | h <;>
      simp [appendToCategory, catIs, List.filter_cons, h, List.append_assoc]

theorem filter_four_length (l : List (List Char)) :
    (l.filter (catIs "subjective")).length + (l.filter (catIs "objective")).length +
      (l.filter (catIs "assessment")).length + (l.filter (catIs "plan")).length =
      l.length := by
  induction l with
  | nil => simp
  | cons s t ih =>
    rcases categorize_total s with h | h | h | h <;>
      simp [List.filter_cons, catIs, h] <;> omega

/-- C3: `parse_encounter` splits the transcript into sentences (newlines
become period-space, split on periods, trim, drop empties) and each
category list holds exactly the sentences the categorizer assigns to it,
in original transcript order; no sentence is dropped, duplicated or
reordered, and the four lists partition the sentence sequence. -/
theorem parse_encounter_partition (text : List Char) :
    (parse_encounter text).plan = (splitSentences text).filter (catIs "plan") ∧
    (parse_encounter text).assessment = (splitSentences text).filter (catIs "assessment") ∧
    (parse_encounter text).objective = (splitSentences text).filter (catIs "objective") ∧
    (parse_encounter text).subjective = (splitSentences text).filter (catIs "subjective") ∧
    (parse_encounter text).subjective.length + (parse_encounter text).objective.length +
      (parse_encounter text).assessment.length + (parse_encounter text).plan.length =
      (splitSentences text).length := by
  rw [parse_encounter, foldl_appendToCategory (splitSentences text) ⟨[], [], [], []⟩]
  refine ⟨by simp, by simp, by simp, by simp, ?_⟩
  simpa using filter_four_length (splitSentences text)

/-- C8: `generate_note` is a pure function of the note state: its output is
fully determined by the identity, provenance, timestamp and section fields
(two notes agreeing on those — the audio payload may even differ — render
byte-identically), so two calls on an unmodified note yield the same
string. -/
theorem generate_note_deterministic (n₁ n₂ : ClinicalNote)
    (hid : n₁.note_id = n₂.note_id) (hp : n₁.patient_id = n₂.patient_id)
    (hph : n₁.physician_name = n₂.physician_name) (hl : n₁.language = n₂.language)
    (ht : n₁.timestamp = n₂.timestamp) (hs : n₁.subjective = n₂.subjective)
    (ho : n₁.objective = n₂.objective) (ha : n₁.assessment = n₂.assessment)
    (hpl : n₁.plan = n₂.plan) :
    generate_note n₁ = generate_note n₂ := by
  simp [generate_note, hid, hp, hph, hl, ht, hs, ho, ha, hpl]

/-- Witness for C8: two notes equal except for the audio payload render the
same report. -/
theorem generate_note_deterministic_witness :
    generate_note ⟨some 1, "PT-1", "Dr. A", "en-US", 0, ["a"], [], [], [], none⟩ =
      generate_note ⟨some 1, "PT-1", "Dr. A", "en-US", 0, ["a"], [], [], [], some [1, 2]⟩ :=
  generate_note_deterministic _ _ rfl rfl rfl rfl rfl rfl rfl rfl rfl

/-- C5: when the record store fails, `save_note` surfaces a `StorageError`
and commits nothing — neither the note row nor the audio row of that save
reaches the persisted state (the two inserts share one transaction applied
at the single trailing commit); when the store works, the save succeeds and
returns the new id. -/
theorem save_note_atomic (db : NoteDatabase) (note : ClinicalNote) :
    (save_note_run db note true).1 = Except.error StorageError.writeFailure ∧
    (save_note_run db note true).2.notes = db.notes ∧
    (save_note_run db note true).2.audio = db.audio ∧
    (save_note_run db note false).1 = Except.ok (save_note db note).1 ∧
    (save_note_run db note false).2 = (save_note db note).2 :=
  ⟨rfl, rfl, rfl, rfl, rfl⟩

/-- C9: an empty-string `patient_id` or `physician_name` argument is tested
by truthiness, so it disables the corresponding filter exactly as `None`
does and never restricts the result to notes whose stored field is the
empty string. -/
theorem search_notes_empty_string (db : NoteDatabase) (pid phys : Option String)
    (sd ed : Option Nat) (lim : Nat) :
    search_notes db (some "") phys sd ed lim = search_notes db none phys sd ed lim ∧
    search_notes db pid (some "") sd ed lim = search_notes db pid none sd ed lim := by
  constructor
  · have hf : db.notes.filter (noteMatches (some "") phys sd ed) =
        db.notes.filter (noteMatches none phys sd ed) :=
      List.filter_congr fun r _ => by simp [noteMatches, strFilterOk]
    simp [search_notes, hf]
  · have hf : db.notes.filter (noteMatches pid (some "") sd ed) =
        db.notes.filter (noteMatches pid none sd ed) :=
      List.filter_congr fun r _ => by simp [noteMatches, strFilterOk]
    simp [search_notes, hf]

theorem length_filter_compl {α : Type} (l : List α) (p : α → Bool) :
    (l.filter fun a => !(p a)).length + (l.filter p).length = l.length := by
  induction l with
  | nil => simp
  | cons a t ih => cases h : p a <;> simp [List.filter_cons, h] <;> omega

/-- C6: `delete_note` returns true exactly when a row with the id exists;
a miss returns false and leaves the state (hence the statistics) unchanged;
a hit removes the note rows and the audio rows for the id, so a subsequent
`get_note` is absent and, when exactly one audio row was attached,
`total_audio_recordings` drops by one. -/
theorem delete_note_contract (db : NoteDatabase) (id : Nat) :
    ((delete_note db id).1 = db.notes.any fun r => r.note_id == id) ∧
    ((db.notes.any fun r => r.note_id == id) = false → delete_note db id = (false, db)) ∧
    ((db.notes.any fun r => r.note_id == id) = true →
      get_note (delete_note db id).2 id = none) ∧
    ((db.notes.any fun r => r.note_id == id) = true →
      (db.audio.filter fun a => a.note_id == id).length = 1 →
      (get_statistics (delete_note db id).2).total_audio_recordings + 1 =
        (get_statistics db).total_audio_recordings) := by
  refine ⟨?_, ?_, ?_, ?_⟩
  · cases h : db.notes.any fun r => r.note_id == id <;> simp [delete_note, h]
  · intro h
    simp [delete_note, h]
  · intro h
    have hfind : ((db.notes.filter fun r => !(r.note_id == id)).find?
        fun r => r.note_id == id) = none := by
      rw [List.find?_eq_none]
      intro x hx
      have := (List.mem_filter.mp hx).2
      simp_all
    simp [delete_note, h, get_note, hfind]
  · intro h h1
    have h2 := length_filter_compl db.audio fun a => a.note_id == id
    simp only [delete_note, h, if_true, get_statistics]
    omega

/-- Witness for C6: on the one-note database, deleting note 1 succeeds, the
note becomes unreadable, the audio count drops from 1 to 0, and deleting a
missing id returns false unchanged. -/
theorem delete_note_contract_witness :
    (delete_note exDb 1).1 = true ∧ get_note (delete_note exDb 1).2 1 = none ∧
    (get_statistics (delete_note exDb 1).2).total_audio_recordings + 1 =
      (get_statistics exDb).total_audio_recordings ∧
    delete_note exDb 99 = (false, exDb) :=
  ⟨((delete_note_contract exDb 1).1).trans (by decide),
   (delete_note_contract exDb 1).2.2.1 (by decide),
   (delete_note_contract exDb 1).2.2.2 (by decide) (by decide),
   (delete_note_contract exDb 99).2.1 (by decide)⟩

theorem idUnused_notes (db : NoteDatabase) (id : Nat) (h : idUnused db id = true) :
    ∀ r ∈ db.notes, (r.note_id == id) = false := by
  rw [idUnused, Bool.and_eq_true] at h
  intro r hr
  simpa using List.all_eq_true.mp h.1 r hr

theorem idUnused_audio (db : NoteDatabase) (id : Nat) (h : idUnused db id = true) :
    ∀ a ∈ db.audio, (a.note_id == id) = false := by
  rw [idUnused, Bool.and_eq_true] at h
  intro a ha
  simpa using List.all_eq_true.mp h.2 a ha

theorem get_note_after_save (db : NoteDatabase) (note : ClinicalNote)
    (h : idUnused db db.next_id = true) :
    get_note (save_note db note).2 (save_note db note).1 =
      some { note_id := some db.next_id, patient_id := note.patient_id,
             physician_name := note.physician_name, language := note.language,
             timestamp := note.timestamp, subjective := note.subjective,
             objective := note.objective, assessment := note.assessment,
             plan := note.plan,
             audio_data := if audioTruthy note.audio_data then
               some (note.audio_data.getD []) else none } := by
  have hnone : (db.notes.find? fun r => r.note_id == db.next_id) = none :=
    List.find?_eq_none.mpr fun r hr => by
      simp [idUnused_notes db db.next_id h r hr]
  have hanone : (db.audio.find? fun a => a.note_id == db.next_id) = none :=
    List.find?_eq_none.mpr fun a ha => by
      simp [idUnused_audio db db.next_id h a ha]
  cases haud : audioTruthy note.audio_data <;>
    simp [get_note, save_note, haud, hnone, hanone, rowToNote]

/-- C4: saving a note and reading it back by the returned id yields a note
with identical patient id, physician name, language, timestamp (stored at
full persisted precision) and all four section lists, content and order. -/
theorem save_get_roundtrip (db : NoteDatabase) (note : ClinicalNote)
    (h : idUnused db db.next_id = true) :
    ∃ n, get_note (save_note db note).2 (save_note db note).1 = some n ∧
      n.patient_id = note.patient_id ∧ n.physician_name = note.physician_name ∧
      n.language = note.language ∧ n.timestamp = note.timestamp ∧
      n.subjective = note.subjective ∧ n.objective = note.objective ∧
      n.assessment = note.assessment ∧ n.plan = note.plan :=
  ⟨_, get_note_after_save db note h, rfl, rfl, rfl, rfl, rfl, rfl, rfl, rfl⟩

/-- Witness for C4: round trip of a concrete note through the one-note
database. -/
theorem save_get_roundtrip_witness :
    ∃ n, get_note (save_note exDb exNote2).2 (save_note exDb exNote2).1 = some n ∧
      n.patient_id = exNote2.patient_id ∧ n.physician_name = exNote2.physician_name ∧
      n.language = exNote2.language ∧ n.timestamp = exNote2.timestamp ∧
      n.subjective = exNote2.subjective ∧ n.objective = exNote2.objective ∧
      n.assessment = exNote2.assessment ∧ n.plan = exNote2.plan :=
  save_get_roundtrip exDb exNote2 (by decide)

/-- C10: a set-but-empty audio byte string is falsy, so `save_note` writes
no audio row: the audio table is unchanged, reading the saved note back
yields an absent audio payload, and `total_audio_recordings` is unchanged
by the save. -/
theorem save_note_empty_audio (db : NoteDatabase) (note : ClinicalNote)
    (h1 : note.audio_data = some []) (h2 : idUnused db db.next_id = true) :
    (save_note db note).2.audio = db.audio ∧
    (∃ n, get_note (save_note db note).2 (save_note db note).1 = some n ∧
      n.audio_data = none) ∧
    (get_statistics (save_note db note).2).total_audio_recordings =
      (get_statistics db).total_audio_recordings := by
  have haud : audioTruthy note.audio_data = false := by rw [h1]; rfl
  refine ⟨?_, ⟨_, get_note_after_save db note h2, by simp [haud]⟩, ?_⟩
  · simp [save_note, haud]
  · simp [save_note, get_statistics, haud]

/-- Witness for C10: saving a note whose audio bytes are `b""` into the
one-note database leaves the audio table and count unchanged. -/
theorem save_note_empty_audio_witness :
    (save_note exDb exNote).2.audio = exDb.audio ∧
    (∃ n, get_note (save_note exDb exNote).2 (save_note exDb exNote).1 = some n ∧
      n.audio_data = none) ∧
    (get_statistics (save_note exDb exNote).2).total_audio_recordings =
      (get_statistics exDb).total_audio_recordings :=
  save_note_empty_audio exDb exNote (by decide) (by decide)

/-- C7: `search_notes` caps its output at `limit`, orders it by clinical
timestamp descending, returns only notes passing every enabled filter
(exact patient id, exact physician name, inclusive timestamp bounds) with
no audio payload loaded, returns the empty list (not an error) when nothing
matches, and — whenever the match count fits under the limit — contains
every matching note. -/
theorem search_notes_contract (db : NoteDatabase) (pid phys : Option String)
    (sd ed : Option Nat) (lim : Nat) :
    (search_notes db pid phys sd ed lim).length ≤ lim ∧
    List.Pairwise (fun a b : ClinicalNote => b.timestamp ≤ a.timestamp)
      (search_notes db pid phys sd ed lim) ∧
    (∀ n ∈ search_notes db pid phys sd ed lim,
      strFilterOk pid n.patient_id = true ∧ strFilterOk phys n.physician_name = true ∧
      dateLowOk sd n.timestamp = true ∧ dateHighOk ed n.timestamp = true ∧
      n.audio_data = none) ∧
    (db.notes.filter (noteMatches pid phys sd ed) = [] →
      search_notes db pid phys sd ed lim = []) ∧
    ((db.notes.filter (noteMatches pid phys sd ed)).length ≤ lim →
      ∀ r ∈ db.notes, noteMatches pid phys sd ed r = true →
        rowToNote r ∈ search_notes db pid phys sd ed lim) := by
  have htrans : ∀ (a b c : NoteRow), tsDesc a b → tsDesc b c → tsDesc a c := by
    intro a b c h1 h2
    simp [tsDesc] at *
    omega
  have htotal : ∀ (a b : NoteRow), tsDesc a b || tsDesc b a := by
    intro a b
    simp [tsDesc]
    omega
  refine ⟨?_, ?_, ?_, ?_, ?_⟩
  · simp only [search_notes, List.length_map, List.length_take]
    exact Nat.min_le_left _ _
  · have hs := List.sorted_mergeSort htrans htotal
      (db.notes.filter (noteMatches pid phys sd ed))
    have htake := hs.sublist (List.take_sublist lim _)
    simp only [search_notes]
    exact List.Pairwise.map rowToNote (fun a b hab => of_decide_eq_true hab) htake
  · intro n hn
    simp only [search_notes, List.mem_map] at hn
    obtain ⟨r, hr, rfl⟩ := hn
    have hr1 : r ∈ (db.notes.filter (noteMatches pid phys sd ed)).mergeSort tsDesc :=
      (List.take_sublist lim _).subset hr
    rw [List.mem_mergeSort] at hr1
    have hm := (List.mem_filter.mp hr1).2
    rw [noteMatches, Bool.and_eq_true, Bool.and_eq_true, Bool.and_eq_true] at hm
    obtain ⟨⟨⟨h1, h2⟩, h3⟩, h4⟩ := hm
    exact ⟨h1, h2, h3, h4, rfl⟩
  · intro h
    simp [search_notes, h]
  · intro hlen r hr hm
    have hmem : r ∈ db.notes.filter (noteMatches pid phys sd ed) :=
      List.mem_filter.mpr ⟨hr, hm⟩
    have hmem2 : r ∈ (db.notes.filter (noteMatches pid phys sd ed)).mergeSort tsDesc :=
      List.mem_mergeSort.mpr hmem
    have hts : ((db.notes.filter (noteMatches pid phys sd ed)).mergeSort tsDesc).take lim =
        (db.notes.filter (noteMatches pid phys sd ed)).mergeSort tsDesc :=
      List.take_of_length_le (by rw [List.length_mergeSort]; exact hlen)
    simp only [search_notes, hts]
    exact List.mem_map_of_mem rowToNote hmem2

/-- Witness for C7: searching the one-note database by its patient id
returns at most the default 100 notes and contains the stored note. -/
theorem search_notes_contract_witness :
    (search_notes exDb (some "PT-12345") none none none 100).length ≤ 100 ∧
    rowToNote ⟨1, "PT-12345", "Dr. Sarah Johnson", "en-US", 5,
        ["Patient complains of cough"], ["BP 128/82"], [], []⟩ ∈
      search_notes exDb (some "PT-12345") none none none 100 :=
  ⟨(search_notes_contract exDb (some "PT-12345") none none none 100).1,
   (search_notes_contract exDb (some "PT-12345") none none none 100).2.2.2.2
     (by decide) _ (by decide) (by decide)⟩

end MedNote
